import Mathlib

/-!
Verification of the connection-lifecycle and request-orchestration core of the
pgsql access layer, shallowly embedded from the TypeScript sources:
error classification (utils/error.utils.ts), the readiness Gate and the pool
facade (extensions/pool.class.ts), the pooled and single-connection supervisors
(core/pool.core.ts, the unnamed CoreClient source), the retrying query and
transaction executors (modules/query.module.ts, modules/transaction.module.ts)
and the notification manager (extensions/notification.class.ts).
-/

/-- Model of a JavaScript runtime value as far as the error-classification
code observes it: the code checks truthiness, typeof object, and reads the
field named code. -/
inductive JsVal where
  | undef
  | nullv
  | boolv (b : Bool)
  | num (n : Int)
  | str (s : String)
  | obj (fields : List (String × JsVal))

/-- Model of JavaScript String.prototype.toUpperCase on the ASCII range,
which covers every SQLSTATE and errno code compared against. -/
def jsToUpperCase (s : String) : String :=
  String.mk (s.data.map Char.toUpper)

/-- Class 08 connection exceptions, from src/utils/error.utils.ts. -/
def pgConnectionErrors : List String :=
  ["08000", "08003", "08006", "08001", "08004", "08007", "08P01"]

/-- Class 40 transaction rollback codes, from src/utils/error.utils.ts. -/
def pgTxnRollbackErrors : List String :=
  ["40000", "40001", "40002", "40003", "40P01"]

/-- Lock-not-available code, from src/utils/error.utils.ts. -/
def pgLockErrors : List String :=
  ["55P03"]

/-- Operator-intervention codes, from src/utils/error.utils.ts. -/
def pgInterventionErrors : List String :=
  ["57000", "57014", "57P01", "57P02", "57P03", "57P04", "57P05"]

/-- Resource-exhaustion codes, from src/utils/error.utils.ts. -/
def pgResourceErrors : List String :=
  ["53000", "53100", "53200", "53300", "53400"]

/-- Node.js network and DNS error codes, from src/utils/error.utils.ts. -/
def retriableNetworkCodes : List String :=
  ["ECONNRESET", "ECONNREFUSED", "ECONNABORTED", "ETIMEDOUT",
   "EPIPE", "EHOSTUNREACH", "ENETUNREACH", "EAI_AGAIN"]

/-- Embedding of isRetriableError from src/utils/error.utils.ts, the variant
imported by both executor modules: nil and non-object inputs are rejected,
the code field must be a string, it is upper-cased, the empty string is
falsy and skips the membership test, and membership is checked against the
six code sets (this file has no class 25 set). -/
def isRetriableError (err : JsVal) : Bool :=
  match err with
  | .obj fields =>
    match List.lookup ("code") fields with
    | some (.str s) =>
      let code := jsToUpperCase s
      if code = "" then
        false
      else
        pgConnectionErrors.contains code ||
        pgTxnRollbackErrors.contains code ||
        pgLockErrors.contains code ||
        pgInterventionErrors.contains code ||
        pgResourceErrors.contains code ||
        retriableNetworkCodes.contains code
    | _ => false
  | _ => false

/-- The closed transient set exactly as the specification section 6 lists it,
including the class 25 codes 25000 25001 25P01 25P02. -/
def specTransientCodes : List String :=
  ["08000", "08001", "08003", "08004", "08006", "08007", "08P01",
   "25000", "25001", "25P01", "25P02",
   "40000", "40001", "40002", "40003", "40P01",
   "53000", "53100", "53200", "53300", "53400",
   "55P03",
   "57000", "57014", "57P01", "57P02", "57P03", "57P04", "57P05",
   "ECONNRESET", "ECONNREFUSED", "ECONNABORTED", "ETIMEDOUT",
   "EPIPE", "EHOSTUNREACH", "ENETUNREACH", "EAI_AGAIN"]

/-- The specification section 6 set with the class 25 codes removed: the
amendment forced on the claim by the source of isRetriableError. -/
def amendedTransientCodes : List String :=
  ["08000", "08001", "08003", "08004", "08006", "08007", "08P01",
   "40000", "40001", "40002", "40003", "40P01",
   "53000", "53100", "53200", "53300", "53400",
   "55P03",
   "57000", "57014", "57P01", "57P02", "57P03", "57P04", "57P05",
   "ECONNRESET", "ECONNREFUSED", "ECONNABORTED", "ETIMEDOUT",
   "EPIPE", "EHOSTUNREACH", "ENETUNREACH", "EAI_AGAIN"]

/-- The claim C1 predicate written from the specification words: the input
carries a string code whose upper-case form is a member of the section 6
transient set. -/
def claimRetriable (err : JsVal) : Bool :=
  match err with
  | .obj fields =>
    match List.lookup ("code") fields with
    | some (.str s) => specTransientCodes.contains (jsToUpperCase s)
    | _ => false
  | _ => false

/-- The amended claim predicate: same shape, membership taken in the
section 6 set without class 25. -/
def amendedRetriable (err : JsVal) : Bool :=
  match err with
  | .obj fields =>
    match List.lookup ("code") fields with
    | some (.str s) => amendedTransientCodes.contains (jsToUpperCase s)
    | _ => false
  | _ => false

theorem unionCheck_eq_amended (c : String) :
    (pgConnectionErrors.contains c ||
     pgTxnRollbackErrors.contains c ||
     pgLockErrors.contains c ||
     pgInterventionErrors.contains c ||
     pgResourceErrors.contains c ||
     retriableNetworkCodes.contains c) = amendedTransientCodes.contains c := by
  have hfwd : (pgConnectionErrors ++ pgTxnRollbackErrors ++ pgLockErrors ++
      pgInterventionErrors ++ pgResourceErrors ++ retriableNetworkCodes)
      ⊆ amendedTransientCodes := by decide
  have hbwd : amendedTransientCodes ⊆
      (pgConnectionErrors ++ pgTxnRollbackErrors ++ pgLockErrors ++
      pgInterventionErrors ++ pgResourceErrors ++ retriableNetworkCodes) := by decide
  rcases Classical.em (c ∈ amendedTransientCodes) with hm | hm
  · have hr : amendedTransientCodes.contains c = true := by simpa using hm
    have hor := hbwd hm
    simp only [List.mem_append] at hor
    rw [hr]
    rcases hor with ((((h | h) | h) | h) | h) | h <;> simp [h]
  · have hr : amendedTransientCodes.contains c = false := by simpa using hm
    have n1 : c ∉ pgConnectionErrors := fun h => hm (hfwd (by simp [h]))
    have n2 : c ∉ pgTxnRollbackErrors := fun h => hm (hfwd (by simp [h]))
    have n3 : c ∉ pgLockErrors := fun h => hm (hfwd (by simp [h]))
    have n4 : c ∉ pgInterventionErrors := fun h => hm (hfwd (by simp [h]))
    have n5 : c ∉ pgResourceErrors := fun h => hm (hfwd (by simp [h]))
    have n6 : c ∉ retriableNetworkCodes := fun h => hm (hfwd (by simp [h]))
    rw [hr]
    simp [n1, n2, n3, n4, n5, n6]

theorem amended_not_contains_empty : amendedTransientCodes.contains ("") = false := by
  decide

/-- Claim C1, corrected: isRetriableError agrees everywhere with the
predicate carrying a string code whose upper-case form lies in the
section 6 transient set with class 25 removed; nil, non-object and
missing-code inputs yield false, and the function is total, hence never
throws. -/
theorem c1_isRetriableError_amended (err : JsVal) :
    isRetriableError err = amendedRetriable err := by
  cases err with
  | obj fields =>
    rw [isRetriableError, amendedRetriable]
    cases hlk : List.lookup ("code") fields with
    | none => rfl
    | some v =>
      cases v with
      | str s =>
        simp only
        by_cases hempty : jsToUpperCase s = ""
        · rw [if_pos hempty, hempty, amended_not_contains_empty]
        · rw [if_neg hempty, unionCheck_eq_amended]
      | undef => rfl
      | nullv => rfl
      | boolv b => rfl
      | num n => rfl
      | obj f => rfl
  | undef => rfl
  | nullv => rfl
  | boolv b => rfl
  | num n => rfl
  | str s => rfl

/-- Counterexample to claim C1 as stated: the error object carrying code
25P02, a member of the section 6 transient set listed in the claim, is
classified not retriable by isRetriableError, because the source file
src/utils/error.utils.ts has no class 25 set. -/
theorem c1_counterexample_class25 :
    isRetriableError (.obj [(("code"), .str ("25P02"))]) = false ∧
    claimRetriable (.obj [(("code"), .str ("25P02"))]) = true := by
  constructor
  · rfl
  · rfl

/-- State of the Gate of src/extensions/pool.class.ts: the isOpen flag, the
waiter count, and whether the shared pending promise currently exists. -/
structure GateState where
  isOpen : Bool
  waiters : Nat
  pending : Bool
  deriving DecidableEq

/-- A Gate is created closed with no waiters and no pending promise. -/
def Gate.initial : GateState :=
  { isOpen := false, waiters := 0, pending := false }

/-- Observable completion of the shared promise: open resolves the released
waiters, close with a reason rejects them carrying the reason. -/
inductive GateEffect where
  | resolved (n : Nat)
  | rejected (n : Nat) (reason : String)
  deriving DecidableEq

/-- Gate.open: returns 0 while already open; otherwise marks open, snapshots
the waiter count and the resolver, resets the shared promise, and resolves
the snapshot resolver if one existed. -/
def Gate.openGate (s : GateState) : GateState × Nat × Option GateEffect :=
  if s.isOpen then
    (s, 0, none)
  else
    let released := s.waiters
    let eff := if s.pending then some (.resolved released) else none
    ({ isOpen := true, waiters := 0, pending := false }, released, eff)

/-- Gate.close: returns 0 on an already-closed gate with no pending promise;
otherwise marks the gate closed; without a reason it leaves the waiters
parked on the surviving promise, with a reason it snapshots the waiter count
and the rejecter, resets the promise, and rejects with the reason. -/
def Gate.close (s : GateState) (reason : Option String) :
    GateState × Nat × Option GateEffect :=
  if !s.isOpen && !s.pending then
    (s, 0, none)
  else
    match reason with
    | none => ({ s with isOpen := false }, s.waiters, none)
    | some r =>
      let eff := if s.pending then some (.rejected s.waiters r) else none
      ({ isOpen := false, waiters := 0, pending := false }, s.waiters, eff)

/-- Whether Gate.enterOrWait completed at once (gate open) or parked the
caller on the shared promise. -/
inductive WaitOutcome where
  | immediate
  | parked
  deriving DecidableEq

/-- Gate.enterOrWait: resolves immediately while open; otherwise creates the
shared promise when absent and increments the waiter count. -/
def Gate.enterOrWait (s : GateState) : GateState × WaitOutcome :=
  if s.isOpen then
    (s, .immediate)
  else
    ({ s with pending := true, waiters := s.waiters + 1 }, .parked)

/-- The three public operations of the Gate. -/
inductive GateOp where
  | opn
  | close (reason : Option String)
  | enterOrWait
  deriving DecidableEq

/-- State reached by one Gate operation. -/
def Gate.step (s : GateState) : GateOp → GateState
  | .opn => (Gate.openGate s).1
  | .close r => (Gate.close s r).1
  | .enterOrWait => (Gate.enterOrWait s).1

/-- State reached by a sequence of Gate operations from the initial state. -/
def Gate.run (ops : List GateOp) : GateState :=
  ops.foldl Gate.step Gate.initial

/-- The inductive invariant of the Gate: an open gate has no waiters and no
pending promise, and the pending promise exists exactly while waiters are
parked on it. -/
def GateInv (s : GateState) : Prop :=
  (s.isOpen = true → s.waiters = 0 ∧ s.pending = false) ∧
  (s.pending = true ↔ 0 < s.waiters)

theorem gateInv_initial : GateInv Gate.initial := by
  constructor
  · intro _
    exact ⟨rfl, rfl⟩
  · constructor
    · intro h
      exact absurd h (by decide)
    · intro h
      exact absurd h (by decide)

theorem gateInv_step (s : GateState) (op : GateOp) (hs : GateInv s) :
    GateInv (Gate.step s op) := by
  obtain ⟨hopen, hpend⟩ := hs
  cases op with
  | opn =>
    rw [Gate.step, Gate.openGate]
    by_cases h : s.isOpen = true
    · rw [if_pos h]
      exact ⟨hopen, hpend⟩
    · rw [if_neg h]
      exact ⟨fun _ => ⟨rfl, rfl⟩, by simp⟩
  | close r =>
    rw [Gate.step]
    unfold Gate.close
    by_cases h : (!s.isOpen && !s.pending) = true
    · rw [if_pos h]
      exact ⟨hopen, hpend⟩
    · rw [if_neg h]
      cases r with
      | none =>
        refine ⟨fun hfalse => absurd hfalse (by simp), ?_⟩
        simpa using hpend
      | some reason =>
        exact ⟨fun hfalse => absurd hfalse (by simp), by simp⟩
  | enterOrWait =>
    rw [Gate.step, Gate.enterOrWait]
    by_cases h : s.isOpen = true
    · rw [if_pos h]
      exact ⟨hopen, hpend⟩
    · rw [if_neg h]
      refine ⟨fun hfalse => absurd hfalse (by simpa using h), ?_⟩
      simp

theorem gateInv_foldl (ops : List GateOp) (s : GateState) (hs : GateInv s) :
    GateInv (ops.foldl Gate.step s) := by
  induction ops generalizing s with
  | nil => exact hs
  | cons op rest ih => exact ih (Gate.step s op) (gateInv_step s op hs)

theorem gateInv_run (ops : List GateOp) : GateInv (Gate.run ops) :=
  gateInv_foldl ops Gate.initial gateInv_initial

/-- Claim C6, confirmed: in every state of the Gate reachable by any
sequence of open, close and enterOrWait operations, the waiter count is
zero whenever the gate is open, and whenever the waiter count is positive
the gate is closed. -/
theorem c6_gate_invariant (ops : List GateOp) :
    ((Gate.run ops).isOpen = true → (Gate.run ops).waiters = 0) ∧
    (0 < (Gate.run ops).waiters → (Gate.run ops).isOpen = false) := by
  obtain ⟨hopen, hpend⟩ := gateInv_run ops
  refine ⟨fun h => (hopen h).1, fun h => ?_⟩
  by_cases ho : (Gate.run ops).isOpen = true
  · exact absurd (hopen ho).1 (by omega)
  · simpa using ho

/-- Witness for C6 at the concrete operation sequence consisting of one
open: the reached state is open and the theorem yields its waiter count. -/
theorem c6_gate_invariant_witness :
    (Gate.run [GateOp.opn]).waiters = 0 :=
  (c6_gate_invariant [GateOp.opn]).1 (by decide)

theorem gateState_eta (s : GateState) (h : s.isOpen = false) :
    { s with isOpen := false } = s := by
  cases s
  simp_all

/-- Claim C5, confirmed: on every reachable Gate state, close with a reason
rejects all current waiters with that reason; close without a reason marks
the gate closed, completes no waiter, and leaves the waiters parked so that
the next open resolves exactly them; close on an already-closed gate with no
waiters returns 0 and changes nothing, for either form of close. -/
theorem c5_gate_close (ops : List GateOp) (r : String) :
    (0 < (Gate.run ops).waiters →
      Gate.close (Gate.run ops) (some r) =
        ({ isOpen := false, waiters := 0, pending := false },
         (Gate.run ops).waiters,
         some (.rejected (Gate.run ops).waiters r))) ∧
    (Gate.close (Gate.run ops) none =
        ({ Gate.run ops with isOpen := false }, (Gate.run ops).waiters, none)) ∧
    (0 < (Gate.run ops).waiters →
      Gate.openGate (Gate.close (Gate.run ops) none).1 =
        ({ isOpen := true, waiters := 0, pending := false },
         (Gate.run ops).waiters, some (.resolved (Gate.run ops).waiters))) ∧
    ((Gate.run ops).isOpen = false → (Gate.run ops).waiters = 0 →
      Gate.close (Gate.run ops) (some r) = (Gate.run ops, 0, none) ∧
      Gate.close (Gate.run ops) none = (Gate.run ops, 0, none)) := by
  obtain ⟨hopen, hpend⟩ := gateInv_run ops
  refine ⟨?_, ?_, ?_, ?_⟩
  · intro hw
    have hp : (Gate.run ops).pending = true := hpend.mpr hw
    have ho : (Gate.run ops).isOpen = false := by
      by_cases h : (Gate.run ops).isOpen = true
      · exact absurd (hopen h).1 (by omega)
      · simpa using h
    unfold Gate.close
    rw [ho, hp]
    simp
  · unfold Gate.close
    by_cases hp : (Gate.run ops).pending = true
    · have hg : (!(Gate.run ops).isOpen && !(Gate.run ops).pending) = false := by
        rw [hp]
        simp
      rw [hg]
      simp
    · have hp' : (Gate.run ops).pending = false := by simpa using hp
      have hw : (Gate.run ops).waiters = 0 := by
        rcases Nat.eq_zero_or_pos (Gate.run ops).waiters with h | h
        · exact h
        · exact absurd (hpend.mpr h) hp
      by_cases ho : (Gate.run ops).isOpen = true
      · have hg : (!(Gate.run ops).isOpen && !(Gate.run ops).pending) = false := by
          rw [ho]
          simp
        rw [hg]
        simp [hw]
      · have ho' : (Gate.run ops).isOpen = false := by simpa using ho
        have hg : (!(Gate.run ops).isOpen && !(Gate.run ops).pending) = true := by
          rw [ho', hp']
          simp
        rw [hg]
        simp only [Bool.true_eq_false, if_true, if_pos]
        rw [gateState_eta (Gate.run ops) ho', hw]
  · intro hw
    have hp : (Gate.run ops).pending = true := hpend.mpr hw
    have hg : (!(Gate.run ops).isOpen && !(Gate.run ops).pending) = false := by
      rw [hp]
      simp
    unfold Gate.close
    rw [hg]
    simp only [Bool.false_eq_true, if_false]
    unfold Gate.openGate
    simp [hp]
  · intro ho hw
    have hp : (Gate.run ops).pending = false := by
      rcases hpb : (Gate.run ops).pending with _ | _
      · rfl
      · exact absurd (hpend.mp hpb) (by omega)
    have hg : (!(Gate.run ops).isOpen && !(Gate.run ops).pending) = true := by
      rw [ho, hp]
      simp
    constructor
    · unfold Gate.close
      rw [hg]
      simp
    · unfold Gate.close
      rw [hg]
      simp

/-- Witness for C5: two waiters parked by enterOrWait are rejected by a
reasoned close, and a reasoned or silent close on the fresh empty gate
returns 0 and changes nothing. -/
theorem c5_gate_close_witness :
    Gate.close (Gate.run [GateOp.enterOrWait, GateOp.enterOrWait]) (some ("shutdown")) =
      ({ isOpen := false, waiters := 0, pending := false }, 2,
        some (.rejected 2 ("shutdown"))) ∧
    (Gate.close (Gate.run ([] : List GateOp)) (some ("x")) =
        (Gate.run ([] : List GateOp), 0, none) ∧
     Gate.close (Gate.run ([] : List GateOp)) none =
        (Gate.run ([] : List GateOp), 0, none)) :=
  ⟨(c5_gate_close [GateOp.enterOrWait, GateOp.enterOrWait] ("shutdown")).1 (by decide),
   (c5_gate_close ([] : List GateOp) ("x")).2.2.2 (by decide) (by decide)⟩

/-- Observable actions of an acquire call: a wait on the readiness Gate, or
a checkout from the underlying driver pool. -/
inductive AcqEvent where
  | gateWait
  | poolConnect
  deriving DecidableEq

/-- Environment of one CorePool.getClient call from src/core/pool.core.ts:
how the awaited Gate promise settles, the value of the shutdown flag when
the await returns, whether the driver pool exists, and how the driver
checkout settles. -/
structure PoolEnv (H : Type) where
  gateWaitResult : Except String Unit
  shuttingDownAfterWait : Bool
  pool : Option Unit
  connectResult : Except String H

/-- Embedding of CorePool.getClient: reject at once while shutting down,
await the Gate, re-check the shutdown flag, require the pool, then check a
client out. The trace records the suspension points that were reached. -/
def CorePool.getClient {H : Type} (isShuttingDown : Bool) (env : PoolEnv H) :
    List AcqEvent × Except String H :=
  if isShuttingDown then
    ([], .error ("Pool is shutting down"))
  else
    match env.gateWaitResult with
    | .error e => ([.gateWait], .error e)
    | .ok _ =>
      if env.shuttingDownAfterWait then
        ([.gateWait], .error ("Pool is shutting down"))
      else
        match env.pool with
        | none => ([.gateWait], .error ("Pool is not initialized"))
        | some _ =>
          match env.connectResult with
          | .error e => ([.gateWait, .poolConnect], .error e)
          | .ok c => ([.gateWait, .poolConnect], .ok c)

/-- Environment of one CoreClient.getClient call from the unnamed
single-connection supervisor source: how the first Gate await settles, the
stored client handle after it, the reconnecting flag, and the second await
with the handle observed after it. -/
structure ClientEnv (H : Type) where
  gateWaitResult : Except String Unit
  clientAfterWait : Option H
  isReconnecting : Bool
  gateWaitResult2 : Except String Unit
  clientAfterWait2 : Option H

/-- Embedding of CoreClient.getClient: await the Gate, return the stored
handle when present; when absent, await once more while reconnecting, then
either return the handle or fail. The shutdown flag is taken as a parameter
to record that the body never consults it. -/
def CoreClient.getClient {H : Type} (isShuttingDown : Bool) (env : ClientEnv H) :
    List AcqEvent × Except String H :=
  match env.gateWaitResult with
  | .error e => ([.gateWait], .error e)
  | .ok _ =>
    match env.clientAfterWait with
    | some c => ([.gateWait], .ok c)
    | none =>
      if env.isReconnecting then
        match env.gateWaitResult2 with
        | .error e => ([.gateWait, .gateWait], .error e)
        | .ok _ =>
          match env.clientAfterWait2 with
          | some c => ([.gateWait, .gateWait], .ok c)
          | none => ([.gateWait, .gateWait],
              .error ("Client is not initialized or not connected"))
      else
        ([.gateWait], .error ("Client is not initialized or not connected"))

/-- The environment of the C2 counterexample: the Gate await resolves and
the stored handle is present. -/
def c2Env : ClientEnv Unit :=
  { gateWaitResult := .ok ()
    clientAfterWait := some ()
    isReconnecting := false
    gateWaitResult2 := .ok ()
    clientAfterWait2 := none }

/-- Counterexample to claim C2 as stated: a CoreClient.getClient call made
while isShuttingDown is set does not reject immediately; it waits on the
Gate (the trace is nonempty) and here returns the live handle, because the
single-connection getClient contains no shutdown check at all. -/
theorem c2_counterexample_single_connection :
    CoreClient.getClient true c2Env = ([.gateWait], .ok ()) ∧
    (CoreClient.getClient true c2Env).1 ≠ [] := by
  constructor
  · rfl
  · intro h
    simp [CoreClient.getClient, c2Env] at h

/-- Claim C2, corrected: the pooled getClient rejects immediately with the
shutdown error and without touching the Gate while isShuttingDown; when not
shutting down it waits on the Gate first, re-checks the flag after the wait
and rejects if it was set meanwhile, and only then checks a live handle out.
The single-connection getClient performs no shutdown check: its behavior is
independent of the flag and it always waits on the Gate first. -/
theorem c2_getClient_amended :
    (∀ (H : Type) (env : PoolEnv H),
      CorePool.getClient true env = ([], .error ("Pool is shutting down"))) ∧
    (∀ (H : Type) (env : PoolEnv H),
      env.gateWaitResult = .ok () → env.shuttingDownAfterWait = true →
      CorePool.getClient false env = ([.gateWait], .error ("Pool is shutting down"))) ∧
    (∀ (H : Type) (env : PoolEnv H) (c : H),
      env.gateWaitResult = .ok () → env.shuttingDownAfterWait = false →
      env.pool = some () → env.connectResult = .ok c →
      CorePool.getClient false env = ([.gateWait, .poolConnect], .ok c)) ∧
    (∀ (H : Type) (env : PoolEnv H),
      ((CorePool.getClient false env).1).head? = some .gateWait) ∧
    (∀ (H : Type) (sd sd' : Bool) (env : ClientEnv H),
      CoreClient.getClient sd env = CoreClient.getClient sd' env) ∧
    (∀ (H : Type) (sd : Bool) (env : ClientEnv H),
      ((CoreClient.getClient sd env).1).head? = some .gateWait) := by
  refine ⟨?_, ?_, ?_, ?_, ?_, ?_⟩
  · intro H env
    rfl
  · intro H env hg hs
    unfold CorePool.getClient
    rw [hg, hs]
    simp
  · intro H env c hg hs hp hc
    unfold CorePool.getClient
    rw [hg, hs, hp, hc]
    simp
  · intro H env
    unfold CorePool.getClient
    rcases env.gateWaitResult with e | u
    · rfl
    · rcases hs : env.shuttingDownAfterWait with _ | _
      · rcases env.pool with _ | p
        · simp [hs]
        · rcases env.connectResult with e | c <;> simp [hs]
      · simp [hs]
  · intro H sd sd' env
    rfl
  · intro H sd env
    unfold CoreClient.getClient
    rcases env.gateWaitResult with e | u
    · rfl
    · rcases env.clientAfterWait with _ | c
      · rcases hr : env.isReconnecting with _ | _
        · simp [hr]
        · rcases env.gateWaitResult2 with e | u2
          · simp [hr]
          · rcases env.clientAfterWait2 with _ | c2 <;> simp [hr]
      · rfl

/-- The pool environment used by the C2 witness. -/
def c2PoolEnv : PoolEnv Unit :=
  { gateWaitResult := .ok ()
    shuttingDownAfterWait := false
    pool := some ()
    connectResult := .ok () }

/-- Witness for C2: on concrete environments, the pooled getClient rejects
at once under shutdown, and passes the Gate then checks a client out
otherwise. -/
theorem c2_getClient_amended_witness :
    CorePool.getClient true c2PoolEnv = ([], .error ("Pool is shutting down")) ∧
    CorePool.getClient false c2PoolEnv = ([.gateWait, .poolConnect], .ok ()) :=
  ⟨c2_getClient_amended.1 Unit c2PoolEnv,
   c2_getClient_amended.2.2.1 Unit c2PoolEnv () rfl rfl rfl rfl⟩

/-- Observable events of one queryWithRetry execution: an attempt with its
number, and a backoff sleep after a failed attempt. -/
inductive QEvent where
  | attempt (n : Nat)
  | sleep (n : Nat)
  deriving DecidableEq

/-- The normalization of the maxAttempts option in query.module.ts and
transaction.module.ts: Math.max(1, Math.floor(options.maxAttempts ?? 1)). -/
def normalizeMaxAttempts (m : Option Int) : Nat :=
  (max 1 (m.getD 1)).toNat

/-- Embedding of the retry loop of queryWithRetry in
src/modules/query.module.ts. One iteration per fuel unit, the attempt
counter starting at 1; an attempt is the acquire plus execute of that
iteration, summarized by the outcomes function. On failure the loop
rethrows when the attempt is the last one or the error is not retriable,
and otherwise sleeps the backoff and continues. Exhausted fuel is the
fallback throw after the for loop, unreachable when the fuel covers the
remaining attempts. -/
def retryGo {A : Type} (outcomes : Nat → Except JsVal A) (maxAttempts : Nat) :
    Nat → Nat → List QEvent × Except JsVal A
  | _, 0 => ([], .error (.str ("Query failed after all retry attempts")))
  | attempt, fuel + 1 =>
    match outcomes attempt with
    | .ok r => ([.attempt attempt], .ok r)
    | .error e =>
      if maxAttempts ≤ attempt || !(isRetriableError e) then
        ([.attempt attempt], .error e)
      else
        let rest := retryGo outcomes maxAttempts (attempt + 1) fuel
        (.attempt attempt :: .sleep attempt :: rest.1, rest.2)

/-- Embedding of queryWithRetry: run the loop from attempt 1 with exactly
maxAttempts iterations available. -/
def queryWithRetry {A : Type} (outcomes : Nat → Except JsVal A)
    (maxAttemptsOption : Option Int) : List QEvent × Except JsVal A :=
  retryGo outcomes (normalizeMaxAttempts maxAttemptsOption) 1
    (normalizeMaxAttempts maxAttemptsOption)

/-- Claim C3, confirmed: a failing attempt that is the last one (attempt at
least maxAttempts) or whose error is not retriable rethrows that error with
no further attempt and no backoff sleep; a failing attempt that is neither
records one backoff sleep and continues with the next attempt; and with
maxAttempts 1 exactly one attempt is made and a transient error on it
surfaces to the caller. -/
theorem c3_query_retry :
    (∀ (A : Type) (outcomes : Nat → Except JsVal A) (n k fuel : Nat) (e : JsVal),
      outcomes k = .error e → (n ≤ k ∨ isRetriableError e = false) →
      retryGo outcomes n k (fuel + 1) = ([.attempt k], .error e)) ∧
    (∀ (A : Type) (outcomes : Nat → Except JsVal A) (n k fuel : Nat) (e : JsVal),
      outcomes k = .error e → k < n → isRetriableError e = true →
      retryGo outcomes n k (fuel + 1) =
        (.attempt k :: .sleep k :: (retryGo outcomes n (k + 1) fuel).1,
         (retryGo outcomes n (k + 1) fuel).2)) ∧
    (∀ (A : Type) (outcomes : Nat → Except JsVal A) (e : JsVal),
      outcomes 1 = .error e →
      queryWithRetry outcomes (some 1) = ([.attempt 1], .error e)) := by
  refine ⟨?_, ?_, ?_⟩
  · intro A outcomes n k fuel e he hstop
    rw [retryGo, he]
    have hcond : (decide (n ≤ k) || !(isRetriableError e)) = true := by
      rcases hstop with h | h
      · simp [h]
      · simp [h]
    simp only [hcond, if_true]
  · intro A outcomes n k fuel e he hk hr
    rw [retryGo, he]
    have hcond : (decide (n ≤ k) || !(isRetriableError e)) = false := by
      simp [hr]
      omega
    simp only [hcond, Bool.false_eq_true, if_false]
  · intro A outcomes e he
    have hn : normalizeMaxAttempts (some 1) = 1 := by decide
    rw [queryWithRetry, hn, retryGo, he]
    simp

/-- A serialization-failure error, SQLSTATE 40001, a member of the
transient set. -/
def errSerialization : JsVal :=
  .obj [(("code"), .str ("40001"))]

/-- A driver that fails every attempt with the serialization error. -/
def sampleOutcomes : Nat → Except JsVal Nat :=
  fun _ => .error errSerialization

/-- Witness for C3 at concrete inputs: with one attempt allowed the
transient failure surfaces at once with no sleep; with two attempts allowed
the first transient failure sleeps once and hands over to attempt 2; and
queryWithRetry with maxAttempts 1 performs exactly one attempt. -/
theorem c3_query_retry_witness :
    retryGo sampleOutcomes 1 1 1 = ([.attempt 1], .error errSerialization) ∧
    retryGo sampleOutcomes 2 1 2 =
      (.attempt 1 :: .sleep 1 :: (retryGo sampleOutcomes 2 2 1).1,
       (retryGo sampleOutcomes 2 2 1).2) ∧
    queryWithRetry sampleOutcomes (some 1) = ([.attempt 1], .error errSerialization) :=
  ⟨c3_query_retry.1 Nat sampleOutcomes 1 1 0 errSerialization rfl (Or.inl (by decide)),
   c3_query_retry.2.1 Nat sampleOutcomes 2 1 1 errSerialization rfl (by decide) (by decide),
   c3_query_retry.2.2 Nat sampleOutcomes errSerialization rfl⟩

/-- A statement issued on the acquired handle during one transaction
attempt of src/modules/transaction.module.ts: BEGIN, one of the batch
queries (kept abstract, as the module only forwards them), COMMIT or
ROLLBACK. -/
inductive Stmt (Q : Type) where
  | begin
  | q (tq : Q)
  | commit
  | rollback

/-- Observable events of a transaction attempt: a statement issued on the
handle, and the swallowed-and-logged failure of a ROLLBACK. -/
inductive TxEvent (Q : Type) where
  | stmt (s : Stmt Q)
  | rollbackFailed

/-- The inner for loop of the attempt: execute the batch queries in input
order, stopping at the first failure, collecting the row sets in input
order. The trace lists the query statements that were issued. -/
def runQueries {A Q : Type} (exec : Stmt Q → Except JsVal A) :
    List Q → List (Stmt Q) × Except JsVal (List A)
  | [] => ([], .ok [])
  | tq :: rest =>
    match exec (.q tq) with
    | .error e => ([.q tq], .error e)
    | .ok r =>
      let next := runQueries exec rest
      (.q tq :: next.1,
       match next.2 with
       | .ok rs => .ok (r :: rs)
       | .error e => .error e)

/-- The catch block's ROLLBACK of transactionWithRetry: issued once, its
own failure swallowed after logging. -/
def rollbackEvents {A Q : Type} (exec : Stmt Q → Except JsVal A) :
    List (TxEvent Q) :=
  match exec .rollback with
  | .ok _ => [.stmt .rollback]
  | .error _ => [.stmt .rollback, .rollbackFailed]

/-- Embedding of one attempt body of transactionWithRetry: BEGIN, the batch
in order, COMMIT; on a failure after a successful BEGIN, one ROLLBACK is
attempted, its own failure only recorded, and the original error is
rethrown. -/
def txAttempt {A Q : Type} (exec : Stmt Q → Except JsVal A) (queries : List Q) :
    List (TxEvent Q) × Except JsVal (List A) :=
  match exec .begin with
  | .error e => ([.stmt .begin], .error e)
  | .ok _ =>
    let ran := runQueries exec queries
    match ran.2 with
    | .error e =>
      (.stmt .begin :: (ran.1.map .stmt ++ rollbackEvents exec), .error e)
    | .ok rs =>
      match exec .commit with
      | .error e =>
        (.stmt .begin :: (ran.1.map .stmt ++ [TxEvent.stmt .commit]
          ++ rollbackEvents exec), .error e)
      | .ok _ =>
        (.stmt .begin :: (ran.1.map .stmt ++ [TxEvent.stmt .commit]), .ok rs)

/-- Number of ROLLBACK statements issued in a transaction attempt trace. -/
def rollbackCount {Q : Type} (tr : List (TxEvent Q)) : Nat :=
  tr.countP (fun ev =>
    match ev with
    | .stmt .rollback => true
    | _ => false)

theorem runQueries_rollbackCount {A Q : Type} (exec : Stmt Q → Except JsVal A)
    (queries : List Q) :
    rollbackCount ((runQueries exec queries).1.map .stmt) = 0 := by
  induction queries with
  | nil => rfl
  | cons tq rest ih =>
    rw [runQueries]
    cases exec (.q tq) with
    | error e => rfl
    | ok r =>
      simp only [List.map_cons]
      rw [rollbackCount, List.countP_cons]
      rw [rollbackCount] at ih
      simpa using ih

theorem rollbackCount_append {Q : Type} (l1 l2 : List (TxEvent Q)) :
    rollbackCount (l1 ++ l2) = rollbackCount l1 + rollbackCount l2 :=
  List.countP_append _ l1 l2

theorem rollbackEvents_count {A Q : Type} (exec : Stmt Q → Except JsVal A) :
    rollbackCount (rollbackEvents exec) = 1 := by
  rw [rollbackEvents]
  cases exec .rollback with
  | ok r => rfl
  | error e => rfl

theorem runQueries_ok {A Q : Type} (exec : Stmt Q → Except JsVal A)
    (queries : List Q) (rs : List A) (h : (runQueries exec queries).2 = .ok rs) :
    (runQueries exec queries).1 = queries.map .q ∧
    rs.length = queries.length ∧
    ∀ i : Nat, ∀ hq : i < queries.length, ∀ hr : i < rs.length,
      exec (.q (queries.get ⟨i, hq⟩)) = .ok (rs.get ⟨i, hr⟩) := by
  induction queries generalizing rs with
  | nil =>
    rw [runQueries] at h
    obtain rfl : ([] : List A) = rs := by
      simpa using h
    exact ⟨rfl, rfl, fun i hq _ => absurd hq (by simp)⟩
  | cons tq rest ih =>
    rw [runQueries] at h
    cases hx : exec (.q tq) with
    | error e =>
      rw [hx] at h
      simp at h
    | ok r =>
      rw [hx] at h
      simp only at h
      cases hnext : (runQueries exec rest).2 with
      | error e =>
        rw [hnext] at h
        simp at h
      | ok rs' =>
        rw [hnext] at h
        obtain rfl : r :: rs' = rs := by
          simpa using h
        obtain ⟨htr, hlen, hget⟩ := ih rs' hnext
        refine ⟨?_, ?_, ?_⟩
        · rw [runQueries, hx]
          simp [htr]
        · simpa using hlen
        · intro i hq hr
          cases i with
          | zero => simpa using hx
          | succ j =>
            simpa using hget j (by simpa using hq) (by simpa using hr)


theorem rollbackCount_cons_begin {Q : Type} (l : List (TxEvent Q)) :
    rollbackCount (TxEvent.stmt .begin :: l) = rollbackCount l := by
  rw [rollbackCount, rollbackCount, List.countP_cons]
  simp

/-- Claim C4, confirmed: in every transaction attempt in which BEGIN
succeeded, a failure of a batch statement or of the COMMIT leads to exactly
one attempted ROLLBACK and the original error as the attempt's outcome,
whether or not the ROLLBACK itself fails (its failure is only recorded);
and on success the batch statements are issued in input order between BEGIN
and COMMIT and the row sets are returned in input order. -/
theorem c4_transaction_rollback :
    (∀ (A Q : Type) (exec : Stmt Q → Except JsVal A) (queries : List Q)
      (b : A) (e : JsVal),
      exec .begin = .ok b → (runQueries exec queries).2 = .error e →
      (txAttempt exec queries).2 = .error e ∧
      rollbackCount (txAttempt exec queries).1 = 1) ∧
    (∀ (A Q : Type) (exec : Stmt Q → Except JsVal A) (queries : List Q)
      (b : A) (rs : List A) (e : JsVal),
      exec .begin = .ok b → (runQueries exec queries).2 = .ok rs →
      exec .commit = .error e →
      (txAttempt exec queries).2 = .error e ∧
      rollbackCount (txAttempt exec queries).1 = 1) ∧
    (∀ (A Q : Type) (exec : Stmt Q → Except JsVal A) (queries : List Q)
      (b c : A) (rs : List A),
      exec .begin = .ok b → (runQueries exec queries).2 = .ok rs →
      exec .commit = .ok c →
      txAttempt exec queries =
        (.stmt .begin :: ((queries.map Stmt.q).map .stmt ++ [TxEvent.stmt .commit]),
         .ok rs) ∧
      rs.length = queries.length ∧
      (∀ i : Nat, ∀ hq : i < queries.length, ∀ hr : i < rs.length,
        exec (.q (queries.get ⟨i, hq⟩)) = .ok (rs.get ⟨i, hr⟩))) := by
  refine ⟨?_, ?_, ?_⟩
  · intro A Q exec queries b e hb he
    have hattempt : txAttempt exec queries =
        (.stmt .begin :: ((runQueries exec queries).1.map .stmt
          ++ rollbackEvents exec), .error e) := by
      rw [txAttempt, hb]
      simp only [he]
    have h2 : (txAttempt exec queries).2 = .error e := by
      rw [hattempt]
    have h1 : (txAttempt exec queries).1 =
        .stmt .begin :: ((runQueries exec queries).1.map .stmt
          ++ rollbackEvents exec) := by
      rw [hattempt]
    refine ⟨h2, ?_⟩
    rw [h1, rollbackCount_cons_begin, rollbackCount_append,
      runQueries_rollbackCount exec queries, rollbackEvents_count exec]
  · intro A Q exec queries b rs e hb hq hc
    have hattempt : txAttempt exec queries =
        (.stmt .begin :: ((runQueries exec queries).1.map .stmt
          ++ [TxEvent.stmt .commit] ++ rollbackEvents exec), .error e) := by
      rw [txAttempt, hb]
      simp only [hq, hc]
    have h2 : (txAttempt exec queries).2 = .error e := by
      rw [hattempt]
    have h1 : (txAttempt exec queries).1 =
        .stmt .begin :: ((runQueries exec queries).1.map .stmt
          ++ [TxEvent.stmt .commit] ++ rollbackEvents exec) := by
      rw [hattempt]
    refine ⟨h2, ?_⟩
    rw [h1, rollbackCount_cons_begin, rollbackCount_append, rollbackCount_append,
      runQueries_rollbackCount exec queries, rollbackEvents_count exec]
    rfl
  · intro A Q exec queries b c rs hb hq hc
    obtain ⟨htr, hlen, hget⟩ := runQueries_ok exec queries rs hq
    refine ⟨?_, hlen, hget⟩
    rw [txAttempt, hb]
    simp only [hq, hc, htr]

/-- A handle on which BEGIN and COMMIT succeed, every batch query fails
with the serialization error, and ROLLBACK itself fails. -/
def txExecFailing : Stmt String → Except JsVal Nat :=
  fun s =>
    match s with
    | .q _ => .error errSerialization
    | .rollback => .error (.str ("rollback failed"))
    | _ => .ok 0

/-- A handle on which every statement succeeds with an empty row set. -/
def txExecOk : Stmt String → Except JsVal Nat :=
  fun _ => .ok 0

/-- Witness for C4: on a handle whose single batch query fails and whose
ROLLBACK also fails, the attempt yields the original query error and a
trace with exactly one ROLLBACK. -/
theorem c4_transaction_rollback_witness :
    (txAttempt txExecFailing [("UPDATE t SET x = 1")]).2 = .error errSerialization ∧
    rollbackCount (txAttempt txExecFailing [("UPDATE t SET x = 1")]).1 = 1 :=
  c4_transaction_rollback.1 Nat String txExecFailing [("UPDATE t SET x = 1")] 0
    errSerialization rfl rfl

/-- Claim C10, confirmed: a successful attempt on an empty batch issues
BEGIN followed immediately by COMMIT and returns the empty list of row
sets. -/
theorem c10_empty_batch (A Q : Type) (exec : Stmt Q → Except JsVal A) (b c : A)
    (hb : exec .begin = .ok b) (hc : exec .commit = .ok c) :
    txAttempt exec ([] : List Q) =
      ([.stmt .begin, .stmt .commit], .ok ([] : List A)) := by
  rw [txAttempt, hb]
  simp only [runQueries]
  rw [hc]
  rfl

/-- Witness for C10: on the always-succeeding handle, the empty batch
produces the trace BEGIN COMMIT and the empty result list. -/
theorem c10_empty_batch_witness :
    txAttempt txExecOk ([] : List String) =
      ([.stmt .begin, .stmt .commit], .ok ([] : List Nat)) :=
  c10_empty_batch Nat String txExecOk 0 0 rfl rfl

/-- The value handed to a subscription's onData callback: the JSON parse of
the payload when parsing succeeds, the raw payload string otherwise. -/
inductive NotifData (J : Type) where
  | parsed (j : J)
  | raw (s : String)
  deriving DecidableEq

/-- Callback invocations observable from one inbound notification. -/
inductive NotifAction (J : Type) where
  | onData (d : NotifData J)
  | onError (e : String)
  deriving DecidableEq

/-- Shared dispatch of a notification to a subscription once the payload p
has been accepted: parse as JSON with fallback to the raw string, invoke
onData, and route an exception thrown by onData to onError. -/
def notifDispatch {J : Type} (parseJson : String → Option J)
    (onDataThrows : NotifData J → Option String) (p : String) :
    List (NotifAction J) :=
  let data : NotifData J :=
    match parseJson p with
    | some j => .parsed j
    | none => .raw p
  match onDataThrows data with
  | none => [.onData data]
  | some e => [.onData data, .onError e]

/-- Embedding of handleNotification from
src/extensions/notification.class.ts: a falsy payload (absent or the empty
string) is dropped, an unmapped channel is dropped, and otherwise the
payload is dispatched. The JSON parser and the behavior of the user onData
callback are environment parameters. -/
def handleNotification {J : Type} (parseJson : String → Option J)
    (channels : List String) (onDataThrows : NotifData J → Option String)
    (channel : String) (payload : Option String) : List (NotifAction J) :=
  match payload with
  | none => []
  | some p =>
    if p = "" then
      []
    else if channels.contains channel then
      notifDispatch parseJson onDataThrows p
    else
      []

/-- The claim C7 dispatch written from the specification words: only an
absent payload is dropped before the subscription lookup. -/
def claimNotifHandle {J : Type} (parseJson : String → Option J)
    (channels : List String) (onDataThrows : NotifData J → Option String)
    (channel : String) (payload : Option String) : List (NotifAction J) :=
  match payload with
  | none => []
  | some p =>
    if channels.contains channel then
      notifDispatch parseJson onDataThrows p
    else
      []

/-- The amended C7 dispatch: a payload that is absent or the empty string
is dropped; the rest is as the claim states. -/
def amendedNotifHandle {J : Type} (parseJson : String → Option J)
    (channels : List String) (onDataThrows : NotifData J → Option String)
    (channel : String) (payload : Option String) : List (NotifAction J) :=
  match payload with
  | none => []
  | some p =>
    if p = "" then
      []
    else if channels.contains channel then
      notifDispatch parseJson onDataThrows p
    else
      []

/-- Counterexample to claim C7 as stated: a present empty-string payload on
a mapped channel is dropped by handleNotification, because the source
guards with the falsiness of the payload, while the claim dictates that the
raw payload reach onData when JSON parsing fails (JSON.parse rejects the
empty string, as the parser here does). -/
theorem c7_counterexample_empty_payload :
    handleNotification (J := Unit) (fun _ => none) [("orders")] (fun _ => none)
      ("orders") (some ("")) = [] ∧
    claimNotifHandle (J := Unit) (fun _ => none) [("orders")] (fun _ => none)
      ("orders") (some ("")) = [.onData (.raw (""))] := by
  constructor
  · rfl
  · rfl

/-- Claim C7, corrected: for every inbound notification, an absent or empty
payload invokes nothing, an unmapped channel invokes nothing, and otherwise
onData receives the JSON parse of the payload when it parses and the raw
payload string when it does not, an exception thrown by onData being routed
to the same subscription's onError. -/
theorem c7_handleNotification_amended (J : Type) (parseJson : String → Option J)
    (channels : List String) (onDataThrows : NotifData J → Option String)
    (channel : String) (payload : Option String) :
    handleNotification parseJson channels onDataThrows channel payload =
      amendedNotifHandle parseJson channels onDataThrows channel payload := by
  cases payload with
  | none => rfl
  | some p => rfl

/-- Callback and query activity observable from one unlisten call. -/
inductive UnlistenEvent where
  | getClientCall
  | unlistenQuery
  | onDisconnect
  | warnLogged
  deriving DecidableEq

/-- Environment of one unlisten call: how getClient settles, how the
UNLISTEN query settles, and whether the onDisconnect callback throws. -/
structure UnlistenEnv (H : Type) where
  getClientResult : Except String H
  queryResult : Except String Unit
  onDisconnectThrows : Option String

/-- Embedding of unlisten from src/extensions/notification.class.ts:
reject when the channel is not mapped; otherwise remove the mapping, then
try getClient, the UNLISTEN query and the onDisconnect callback, any
failure inside the try being logged as a warning and swallowed so the call
returns successfully. -/
def unlisten {H : Type} (channels : List String) (channel : String)
    (env : UnlistenEnv H) :
    List String × List UnlistenEvent × Except String Unit :=
  if channels.contains channel then
    let remaining := channels.erase channel
    match env.getClientResult with
    | .error _ => (remaining, [.getClientCall, .warnLogged], .ok ())
    | .ok _ =>
      match env.queryResult with
      | .error _ =>
        (remaining, [.getClientCall, .unlistenQuery, .warnLogged], .ok ())
      | .ok _ =>
        match env.onDisconnectThrows with
        | some _ =>
          (remaining, [.getClientCall, .unlistenQuery, .onDisconnect, .warnLogged],
           .ok ())
        | none =>
          (remaining, [.getClientCall, .unlistenQuery, .onDisconnect], .ok ())
  else
    (channels, [], .error ("Not listening to channel: " ++ channel))

/-- The environment of the C8 counterexample: getClient succeeds and the
UNLISTEN query fails. -/
def c8Env : UnlistenEnv Unit :=
  { getClientResult := .ok ()
    queryResult := .error ("connection reset")
    onDisconnectThrows := none }

/-- Counterexample to claim C8 as stated: when the UNLISTEN query fails,
the mapping is removed and the call still returns successfully, but the
onDisconnect callback is never invoked, because the source only reaches it
after a successful query inside the try block. -/
theorem c8_counterexample_onDisconnect :
    unlisten [("orders")] ("orders") c8Env =
      ([], [.getClientCall, .unlistenQuery, .warnLogged], .ok ()) ∧
    UnlistenEvent.onDisconnect ∉ (unlisten [("orders")] ("orders") c8Env).2.1 := by
  constructor
  · rfl
  · decide

/-- Claim C8, corrected: unlisten on an unmapped channel rejects and
changes nothing; on a mapped channel the mapping is removed, the UNLISTEN
query is attempted with any failure logged and swallowed so the call
returns successfully, and the subscription's onDisconnect callback is
invoked exactly when getClient and the UNLISTEN query both succeed. -/
theorem c8_unlisten_amended :
    (∀ (H : Type) (channels : List String) (channel : String)
      (env : UnlistenEnv H), channels.contains channel = false →
      unlisten channels channel env =
        (channels, [], .error ("Not listening to channel: " ++ channel))) ∧
    (∀ (H : Type) (channels : List String) (channel : String)
      (env : UnlistenEnv H), channels.contains channel = true →
      (unlisten channels channel env).1 = channels.erase channel ∧
      (unlisten channels channel env).2.2 = .ok () ∧
      ((UnlistenEvent.onDisconnect ∈ (unlisten channels channel env).2.1) ↔
        ((∃ h, env.getClientResult = .ok h) ∧ env.queryResult = .ok ()))) := by
  constructor
  · intro H channels channel env hmem
    unfold unlisten
    rw [hmem]
    simp
  · intro H channels channel env hmem
    rcases hg : env.getClientResult with e | h
    · have hu : unlisten channels channel env =
          (channels.erase channel, [.getClientCall, .warnLogged], .ok ()) := by
        unfold unlisten
        rw [hmem, hg]
        rfl
      rw [hu]
      refine ⟨rfl, rfl, ?_⟩
      simp [hg]
    · rcases hq : env.queryResult with e | u
      · have hu : unlisten channels channel env =
            (channels.erase channel,
             [.getClientCall, .unlistenQuery, .warnLogged], .ok ()) := by
          unfold unlisten
          rw [hmem, hg, hq]
          rfl
        rw [hu]
        refine ⟨rfl, rfl, ?_⟩
        simp [hq]
      · rcases hd : env.onDisconnectThrows with _ | ex
        · have hu : unlisten channels channel env =
              (channels.erase channel,
               [.getClientCall, .unlistenQuery, .onDisconnect], .ok ()) := by
            unfold unlisten
            rw [hmem, hg, hq, hd]
            rfl
          rw [hu]
          refine ⟨rfl, rfl, ?_⟩
          simp [hg, hq]
        · have hu : unlisten channels channel env =
              (channels.erase channel,
               [.getClientCall, .unlistenQuery, .onDisconnect, .warnLogged],
               .ok ()) := by
            unfold unlisten
            rw [hmem, hg, hq, hd]
            rfl
          rw [hu]
          refine ⟨rfl, rfl, ?_⟩
          simp [hg, hq]

/-- The environment of the C8 witness: everything succeeds. -/
def c8OkEnv : UnlistenEnv Unit :=
  { getClientResult := .ok ()
    queryResult := .ok ()
    onDisconnectThrows := none }

/-- Witness for C8 at concrete inputs: an unmapped channel rejects, and a
mapped channel with a fully successful environment removes the mapping,
returns successfully, and invokes onDisconnect. -/
theorem c8_unlisten_amended_witness :
    unlisten ([] : List String) ("orders") c8OkEnv =
      ([], [], .error ("Not listening to channel: " ++ "orders")) ∧
    ((unlisten [("orders")] ("orders") c8OkEnv).1 = [("orders")].erase ("orders") ∧
      (unlisten [("orders")] ("orders") c8OkEnv).2.2 = .ok () ∧
      ((UnlistenEvent.onDisconnect ∈ (unlisten [("orders")] ("orders") c8OkEnv).2.1) ↔
        ((∃ h, c8OkEnv.getClientResult = .ok h) ∧ c8OkEnv.queryResult = .ok ()))) :=
  ⟨c8_unlisten_amended.1 Unit ([] : List String) ("orders") c8OkEnv (by decide),
   c8_unlisten_amended.2 Unit [("orders")] ("orders") c8OkEnv (by decide)⟩

/-- The counters of the underlying pg driver pool sampled by metrics. -/
structure DriverPool where
  totalCount : Int
  idleCount : Int
  waitingCount : Int

/-- The metrics record returned by CorePool.metrics. -/
structure PoolMetrics where
  total : Int
  idle : Int
  active : Int
  waiting : Int
  deriving DecidableEq

/-- Embedding of CorePool.metrics from src/core/pool.core.ts: null while no
driver pool exists, otherwise the sampled record with active computed as
total minus idle. -/
def CorePool.metrics (pool : Option DriverPool) : Option PoolMetrics :=
  match pool with
  | none => none
  | some p =>
    some { total := p.totalCount
           idle := p.idleCount
           active := p.totalCount - p.idleCount
           waiting := p.waitingCount }

/-- Claim C9, confirmed: metrics returns null exactly when no driver pool
exists (before initialization or after destruction), and otherwise returns
the record of total, idle, active computed as total minus idle, and
waiting, sampled from the driver pool. -/
theorem c9_metrics :
    CorePool.metrics none = none ∧
    (∀ p : DriverPool,
      CorePool.metrics (some p) =
        some { total := p.totalCount
               idle := p.idleCount
               active := p.totalCount - p.idleCount
               waiting := p.waitingCount }) ∧
    (∀ pool : Option DriverPool,
      (CorePool.metrics pool).isNone = pool.isNone) := by
  refine ⟨rfl, fun p => rfl, fun pool => ?_⟩
  cases pool with
  | none => rfl
  | some p => rfl
